import Mathlib

/-!
# Verification of the `watpy` War Track Dashboard API client

The repository's visible source (`watpy/__init__.py`) is the export surface:
it re-exports `Client` from `watpy.client`, the six `WarTrack*` exception
kinds from `watpy.exceptions`, and the seven model types from `watpy.models`.
Those three sibling modules are not part of the visible source, so their
behaviour is modelled here from the specification's component contracts
(§3 Data Model, §4.1 Exception Taxonomy, §4.2 Data Models, §4.3 Client,
§6 External Interfaces); each such definition carries a doc comment saying
so. The export list itself is embedded verbatim from `watpy/__init__.py`.
-/

namespace Watpy

/-! ## JSON values (the shape of response bodies, §6) -/

/-- A JSON value, the decoded form of an HTTP response body. Objects are
field-name/value association lists in the order the fields appear. -/
inductive Json where
  | null
  | bool (b : Bool)
  | num (n : Int)
  | str (s : String)
  | arr (elems : List Json)
  | obj (fields : List (String × Json))
deriving BEq, Repr, Inhabited

/-- Look up the value of field `k` in a JSON object's field list
(first occurrence wins). -/
def getField (fields : List (String × Json)) (k : String) : Option Json :=
  match fields.find? (fun p => p.1 == k) with
  | some p => some p.2
  | none => none

/-- Fetch a required string field: fails when the field is absent or is not
a JSON string (§4.2: "fails with a decoding error when a required field is
absent or has the wrong shape"). -/
def getStr (fields : List (String × Json)) (k : String) : Except String String :=
  match getField fields k with
  | some (Json.str s) => Except.ok s
  | some _ => Except.error ("field has the wrong shape: " ++ k)
  | none => Except.error ("missing required field: " ++ k)

/-- Fetch an optional string field: absent or `null` decodes to `none`,
a string decodes to `some`, anything else is a shape error. -/
def getOptStr (fields : List (String × Json)) (k : String) :
    Except String (Option String) :=
  match getField fields k with
  | none => Except.ok none
  | some Json.null => Except.ok none
  | some (Json.str s) => Except.ok (some s)
  | some _ => Except.error ("field has the wrong shape: " ++ k)

/-- Fetch a required integer field. -/
def getInt (fields : List (String × Json)) (k : String) : Except String Int :=
  match getField fields k with
  | some (Json.num n) => Except.ok n
  | some _ => Except.error ("field has the wrong shape: " ++ k)
  | none => Except.error ("missing required field: " ++ k)

/-- Fetch a required array field. -/
def getArr (fields : List (String × Json)) (k : String) :
    Except String (List Json) :=
  match getField fields k with
  | some (Json.arr es) => Except.ok es
  | some _ => Except.error ("field has the wrong shape: " ++ k)
  | none => Except.error ("missing required field: " ++ k)

/-! ## Data models (§3, §4.2) -/

/-- Modelled from the spec: `watpy.models.Country` (module absent from the
visible source). §3: "a named enumeration/value identifying a national actor.
Attribute: a stable identifier/name string." -/
structure Country where
  name : String
deriving BEq, DecidableEq, Repr

/-- Modelled from the spec: `watpy.models.EquipmentType` (module absent from
the visible source). §3: "an enumeration of categories of equipment.
Attribute: a stable identifier/name string." -/
structure EquipmentType where
  name : String
deriving BEq, DecidableEq, Repr

/-- Modelled from the spec: `watpy.models.Status` (module absent from the
visible source). §3: "an enumeration of operational states applicable to a
System." -/
structure Status where
  name : String
deriving BEq, DecidableEq, Repr

/-- Modelled from the spec: `watpy.models.Equipment` (module absent from the
visible source). §3: "identifier, display name, EquipmentType, owning
Country, optional free-form metadata (e.g., description, image reference)." -/
structure Equipment where
  id : String
  name : String
  equipment_type : EquipmentType
  country : Country
  description : Option String
  image : Option String
deriving BEq, DecidableEq, Repr

/-- Modelled from the spec: `watpy.models.System` (module absent from the
visible source). §3: "identifier, display name, Status, owning Country,
optional free-form metadata"; field names follow the §8 scenario payload
`{id, name, status, country}`. -/
structure System where
  id : String
  name : String
  status : Status
  country : Country
  description : Option String
  image : Option String
deriving BEq, DecidableEq, Repr

/-- Modelled from the spec: `watpy.models.AllEquipment` (module absent from
the visible source). §3: "an ordered sequence of Equipment plus
pagination/result metadata (e.g., total count)." -/
structure AllEquipment where
  items : List Equipment
  total : Int
deriving BEq, DecidableEq, Repr

/-- Modelled from the spec: `watpy.models.AllSystem` (module absent from the
visible source). §3: "an ordered sequence of System plus pagination/result
metadata, mirroring AllEquipment." -/
structure AllSystem where
  items : List System
  total : Int
deriving BEq, DecidableEq, Repr

/-- Modelled from the spec: the `Equipment` decode operation of
`watpy.models` (module absent from the visible source). §4.2: "input is a
mapping of field names to JSON-typed values; output is a populated instance;
fails with a decoding error when a required field is absent or has the
wrong shape." -/
def Equipment.decode (j : Json) : Except String Equipment :=
  match j with
  | Json.obj fields =>
    match getStr fields "id" with
    | Except.error m => Except.error m
    | Except.ok id =>
      match getStr fields "name" with
      | Except.error m => Except.error m
      | Except.ok name =>
        match getStr fields "type" with
        | Except.error m => Except.error m
        | Except.ok ty =>
          match getStr fields "country" with
          | Except.error m => Except.error m
          | Except.ok country =>
            match getOptStr fields "description" with
            | Except.error m => Except.error m
            | Except.ok description =>
              match getOptStr fields "image" with
              | Except.error m => Except.error m
              | Except.ok image =>
                Except.ok ⟨id, name, ⟨ty⟩, ⟨country⟩, description, image⟩
  | _ => Except.error "expected a JSON object"

/-- Modelled from the spec: the `System` decode operation of `watpy.models`
(module absent from the visible source), mirroring `Equipment.decode` with a
`status` field per the §8 scenario payload. -/
def System.decode (j : Json) : Except String System :=
  match j with
  | Json.obj fields =>
    match getStr fields "id" with
    | Except.error m => Except.error m
    | Except.ok id =>
      match getStr fields "name" with
      | Except.error m => Except.error m
      | Except.ok name =>
        match getStr fields "status" with
        | Except.error m => Except.error m
        | Except.ok status =>
          match getStr fields "country" with
          | Except.error m => Except.error m
          | Except.ok country =>
            match getOptStr fields "description" with
            | Except.error m => Except.error m
            | Except.ok description =>
              match getOptStr fields "image" with
              | Except.error m => Except.error m
              | Except.ok image =>
                Except.ok ⟨id, name, ⟨status⟩, ⟨country⟩, description, image⟩
  | _ => Except.error "expected a JSON object"

/-- Decode every element of a JSON array in order, failing on the first
element that fails (§7: "never partially tolerated"). -/
def decodeItems (dec : Json → Except String α) : List Json → Except String (List α)
  | [] => Except.ok []
  | j :: js =>
    match dec j with
    | Except.error m => Except.error m
    | Except.ok x =>
      match decodeItems dec js with
      | Except.error m => Except.error m
      | Except.ok xs => Except.ok (x :: xs)

/-- Modelled from the spec: the `AllEquipment` decode operation of
`watpy.models` (module absent from the visible source). §4.2: "input is a
JSON object containing a list field plus pagination metadata fields; output
aggregates a sequence of decoded singular models in the order received plus
the metadata fields"; field names follow the §8 scenario payload
`{items, total}`. -/
def AllEquipment.decode (j : Json) : Except String AllEquipment :=
  match j with
  | Json.obj fields =>
    match getArr fields "items" with
    | Except.error m => Except.error m
    | Except.ok es =>
      match decodeItems Equipment.decode es with
      | Except.error m => Except.error m
      | Except.ok items =>
        match getInt fields "total" with
        | Except.error m => Except.error m
        | Except.ok total => Except.ok ⟨items, total⟩
  | _ => Except.error "expected a JSON object"

/-- Modelled from the spec: the `AllSystem` decode operation of
`watpy.models` (module absent from the visible source), mirroring
`AllEquipment.decode`. -/
def AllSystem.decode (j : Json) : Except String AllSystem :=
  match j with
  | Json.obj fields =>
    match getArr fields "items" with
    | Except.error m => Except.error m
    | Except.ok es =>
      match decodeItems System.decode es with
      | Except.error m => Except.error m
      | Except.ok items =>
        match getInt fields "total" with
        | Except.error m => Except.error m
        | Except.ok total => Except.ok ⟨items, total⟩
  | _ => Except.error "expected a JSON object"

/-- Encode an optional string field: `some` becomes one field, `none` is
omitted (matching `getOptStr`, which reads an absent field as `none`). -/
def encodeOptStr (k : String) : Option String → List (String × Json)
  | some s => [(k, Json.str s)]
  | none => []

/-- Modelled from the spec: the `System` encode path of `watpy.models`
(module absent from the visible source). §8: "re-encoding it (if an encode
path exists) round-trips all fields unchanged"; emits the schema fields in
the decode order, omitting absent optionals. -/
def System.encode (s : System) : Json :=
  Json.obj ([("id", Json.str s.id), ("name", Json.str s.name),
    ("status", Json.str s.status.name), ("country", Json.str s.country.name)]
    ++ encodeOptStr "description" s.description
    ++ encodeOptStr "image" s.image)

/-! ## Exception taxonomy (§4.1) -/

/-- Modelled from the spec: the `watpy.exceptions` hierarchy tags (module
absent from the visible source). §9: "represent the Exception Taxonomy as a
closed set of variants (one tag per HTTP-status class)." -/
inductive ErrKind where
  | api
  | authentication
  | forbidden
  | notFound
  | rateLimit
  | server
deriving BEq, DecidableEq, Repr

/-- Modelled from the spec: the common field set of `watpy.exceptions`
(module absent from the visible source). §4.1: the base kind "carries
`status_code: int`, `message: string`, optional raw response body". -/
structure ErrorPayload where
  status_code : Int
  message : String
  raw_body : Option String
deriving BEq, DecidableEq, Repr

/-- Modelled from the spec: the `watpy.exceptions` class hierarchy (module
absent from the visible source): one variant per exception class, each
carrying the base class's field set. -/
inductive WarTrackException where
  | apiError (p : ErrorPayload)
  | authenticationError (p : ErrorPayload)
  | forbiddenError (p : ErrorPayload)
  | notFoundError (p : ErrorPayload)
  | rateLimitError (p : ErrorPayload)
  | serverError (p : ErrorPayload)
deriving BEq, DecidableEq, Repr

/-- The payload every exception variant carries (the base class's fields). -/
def WarTrackException.payload : WarTrackException → ErrorPayload
  | .apiError p => p
  | .authenticationError p => p
  | .forbiddenError p => p
  | .notFoundError p => p
  | .rateLimitError p => p
  | .serverError p => p

/-- The variant tag of an exception value. -/
def WarTrackException.kind : WarTrackException → ErrKind
  | .apiError _ => .api
  | .authenticationError _ => .authentication
  | .forbiddenError _ => .forbidden
  | .notFoundError _ => .notFound
  | .rateLimitError _ => .rateLimit
  | .serverError _ => .server

/-- The `status_code` attribute, inherited from the base class. -/
def WarTrackException.status_code (e : WarTrackException) : Int :=
  e.payload.status_code

/-- The `message` attribute, inherited from the base class. -/
def WarTrackException.message (e : WarTrackException) : String :=
  e.payload.message

/-- Membership in the base class `WarTrackAPIError`: the Lean counterpart of
`isinstance(e, WarTrackAPIError)` over the closed hierarchy; each variant is
listed by the subclass it embeds. -/
def isWarTrackAPIError : WarTrackException → Bool
  | .apiError _ => true
  | .authenticationError _ => true
  | .forbiddenError _ => true
  | .notFoundError _ => true
  | .rateLimitError _ => true
  | .serverError _ => true

/-- Construct the exception variant named by a tag. -/
def mkException : ErrKind → ErrorPayload → WarTrackException
  | .api, p => .apiError p
  | .authentication, p => .authenticationError p
  | .forbidden, p => .forbiddenError p
  | .notFound, p => .notFoundError p
  | .rateLimit, p => .rateLimitError p
  | .server, p => .serverError p

/-! ## Client (§4.3, §6) -/

/-- Modelled from the spec: the status-code → exception-kind mapping of
`watpy.client` (module absent from the visible source). §4.1:
401 → authentication, 403 → forbidden, 404 → not-found, 429 → rate-limit,
5xx → server, "unmapped 4xx/others fall back to the base kind". -/
def kindForStatus (status : Nat) : ErrKind :=
  if status == 401 then .authentication
  else if status == 403 then .forbidden
  else if status == 404 then .notFound
  else if status == 429 then .rateLimit
  else if 500 ≤ status && status < 600 then .server
  else .api

/-- The structured error message field of a JSON error body, when present
(§4.1: "prefer a structured error message field from the JSON body"). -/
def jsonMessageField : Option Json → Option String
  | some (Json.obj fields) =>
    match getField fields "message" with
    | some (Json.str s) => some s
    | _ => none
  | _ => none

/-- The generic fallback phrase naming the status code (§4.1: "fall back to
a generic phrase naming the status code"). -/
def genericMessage (status : Nat) : String :=
  "HTTP error " ++ toString status

/-- Modelled from the spec: the error-message construction of `watpy.client`
(module absent from the visible source). §4.1: "prefer a structured error
message field from the JSON body; fall back to the raw body text; fall back
to a generic phrase naming the status code". `jsonBody` is the result of
attempting to parse the raw body as JSON (`none` for empty or non-JSON
bodies). -/
def bestMessage (status : Nat) (body : String) (jsonBody : Option Json) : String :=
  match jsonMessageField jsonBody with
  | some m => m
  | none => if body == "" then genericMessage status else body

/-- Modelled from the spec: the exception a `watpy.client` error path raises
for a non-2xx response (module absent from the visible source). §4.1:
"construct it with the status code and the best-available message". -/
def raiseFor (status : Nat) (body : String) (jsonBody : Option Json) :
    WarTrackException :=
  mkException (kindForStatus status)
    ⟨(status : Int), bestMessage status body jsonBody, some body⟩

/-- Modelled from the spec: the construction-time configuration of
`watpy.client.Client` (module absent from the visible source). §6:
"recognized options — base_url, credential, timeout". -/
structure ClientConfig where
  base_url : String
  credential : String
  timeout : Nat
deriving BEq, DecidableEq, Repr

/-- Modelled from the spec: the four public `Client` operations of
`watpy.client` (module absent from the visible source), per §4.3's public
contract. -/
inductive Operation where
  | get_equipment (id : String)
  | list_equipment (filters : List (String × String)) (page : Nat)
  | get_system (id : String)
  | list_system (filters : List (String × String)) (page : Nat)
deriving BEq, Repr

/-- An outbound HTTP request as the transport sees it: resource path, query
parameters, and the credential header (§6). -/
structure Request where
  base_url : String
  path : String
  query : List (String × String)
  credential : String
deriving BEq, Repr

/-- Modelled from the spec: the request each `watpy.client` operation builds
(module absent from the visible source). §6: resource-oriented GET paths
`/equipment/{id}`, `/equipment?..&page=..`, `/system/{id}`, `/system?..`,
credential attached via a request header. -/
def buildRequest (c : ClientConfig) : Operation → Request
  | .get_equipment id => ⟨c.base_url, "/equipment/" ++ id, [], c.credential⟩
  | .list_equipment filters page =>
    ⟨c.base_url, "/equipment", filters ++ [("page", toString page)], c.credential⟩
  | .get_system id => ⟨c.base_url, "/system/" ++ id, [], c.credential⟩
  | .list_system filters page =>
    ⟨c.base_url, "/system", filters ++ [("page", toString page)], c.credential⟩

/-- What the transport layer yields for one request: either an HTTP response
(status, raw body text, and the body parsed as JSON when it is valid JSON)
or a timeout (§5: the timeout "is treated as a transport-level failure
distinct from the Exception Taxonomy"). -/
inductive TransportOutcome where
  | response (status : Nat) (body : String) (jsonBody : Option Json)
  | timedOut
deriving BEq, Repr

/-- The value a successful operation returns: its operation's model type. -/
inductive ModelValue where
  | equipment (e : Equipment)
  | allEquipment (a : AllEquipment)
  | system (s : System)
  | allSystem (a : AllSystem)
deriving BEq, DecidableEq, Repr

/-- The decoder each operation applies to a 2xx response body (§4.3: singular
operations decode one entity, list operations decode a container page). -/
def decodeFor : Operation → Json → Except String ModelValue
  | .get_equipment _, j => (Equipment.decode j).map ModelValue.equipment
  | .list_equipment _ _, j => (AllEquipment.decode j).map ModelValue.allEquipment
  | .get_system _, j => (System.decode j).map ModelValue.system
  | .list_system _ _, j => (AllSystem.decode j).map ModelValue.allSystem

/-- The outcome of one `Client` call as the caller sees it: a model value, a
raised taxonomy exception, a raised decoding error (§7's second, disjoint
taxonomy), or a raised timeout error (§5). -/
inductive ClientResult where
  | success (v : ModelValue)
  | apiFailure (e : WarTrackException)
  | decodeFailure (msg : String)
  | timeoutFailure
deriving BEq, DecidableEq, Repr

/-- Modelled from the spec: how `watpy.client` turns one transport outcome
into the call's result (module absent from the visible source). §2: "on
success, Client decodes the body into Model instances and returns them; on
failure, Client raises an Exception Taxonomy member constructed from the
status code and response body"; decoding errors are "raised immediately to
the caller rather than retried" (§4.2). -/
def handleOutcome (op : Operation) : TransportOutcome → ClientResult
  | .timedOut => .timeoutFailure
  | .response status body jsonBody =>
    if 200 ≤ status && status < 300 then
      match jsonBody with
      | none => .decodeFailure "response body is not valid JSON"
      | some j =>
        match decodeFor op j with
        | .ok v => .success v
        | .error msg => .decodeFailure msg
    else
      .apiFailure (raiseFor status body jsonBody)

/-- Modelled from the spec: one `Client` call (module absent from the
visible source). §4.3: "every call performs exactly one outbound HTTP
request (no implicit retry, no implicit pagination traversal)"; the call
builds the operation's request, performs it against the transport once, and
handles the single outcome. The second component records each request
issued against the transport, in order. -/
def clientCall (c : ClientConfig) (op : Operation)
    (transport : Request → TransportOutcome) : ClientResult × List Request :=
  let req := buildRequest c op
  (handleOutcome op (transport req), [req])

/-! ## The export surface of `watpy/__init__.py` (embedded from src) -/

/-- The `__all__` list of `watpy/__init__.py`, verbatim and in source order. -/
def dunderAll : List String :=
  ["Client",
   "WarTrackAPIError",
   "WarTrackAuthenticationError",
   "WarTrackForbiddenError",
   "WarTrackNotFoundError",
   "WarTrackRateLimitError",
   "WarTrackServerError",
   "Country",
   "EquipmentType",
   "Status",
   "Equipment",
   "AllEquipment",
   "System",
   "AllSystem"]

/-- The names imported at the top level of `watpy/__init__.py`, in source
order: `Client` from `watpy.client`, the six exception kinds from
`watpy.exceptions`, the seven model types from `watpy.models`. -/
def importedNames : List String :=
  ["Client",
   "WarTrackAPIError",
   "WarTrackAuthenticationError",
   "WarTrackForbiddenError",
   "WarTrackNotFoundError",
   "WarTrackRateLimitError",
   "WarTrackServerError",
   "AllEquipment",
   "AllSystem",
   "Country",
   "Equipment",
   "EquipmentType",
   "Status",
   "System"]

/-- `true` when no name occurs twice in the list. -/
def nodupNames : List String → Bool
  | [] => true
  | x :: xs => !(xs.contains x) && nodupNames xs

/-- `true` when the two lists contain exactly the same set of names. -/
def sameNames (xs ys : List String) : Bool :=
  xs.all (fun x => ys.contains x) && ys.all (fun y => xs.contains y)

/-! ## Concrete fixtures used to exercise the definitions -/

/-- A fixed client configuration for concrete evaluations. -/
def exampleConfig : ClientConfig := ⟨"https://api", "key", 30⟩

/-- A transport serving an empty `AllSystem` page for every request. -/
def emptyPageTransport : Request → TransportOutcome :=
  fun _ => TransportOutcome.response 200 "ok"
    (some (Json.obj [("items", Json.arr []), ("total", Json.num 0)]))

/-- A concrete equipment entity object. -/
def eqJson1 : Json := Json.obj [("id", Json.str "e1"), ("name", Json.str "A"),
  ("type", Json.str "tank"), ("country", Json.str "X")]

/-- A second concrete equipment entity object. -/
def eqJson2 : Json := Json.obj [("id", Json.str "e2"), ("name", Json.str "B"),
  ("type", Json.str "tank"), ("country", Json.str "X")]

/-- A third concrete equipment entity object. -/
def eqJson3 : Json := Json.obj [("id", Json.str "e3"), ("name", Json.str "C"),
  ("type", Json.str "tank"), ("country", Json.str "X")]

/-- The §8 scenario's system entity object. -/
def sysJson1 : Json := Json.obj [("id", Json.str "s1"), ("name", Json.str "Radar A"),
  ("status", Json.str "active"), ("country", Json.str "X")]

/-- The decoded form of the three-equipment page. -/
def decodedEquipmentPage : AllEquipment :=
  ⟨[⟨"e1", "A", ⟨"tank"⟩, ⟨"X"⟩, none, none⟩,
    ⟨"e2", "B", ⟨"tank"⟩, ⟨"X"⟩, none, none⟩,
    ⟨"e3", "C", ⟨"tank"⟩, ⟨"X"⟩, none, none⟩], 3⟩

/-- The decoded form of the §8 scenario's one-system page. -/
def decodedSystemPage : AllSystem :=
  ⟨[⟨"s1", "Radar A", ⟨"active"⟩, ⟨"X"⟩, none, none⟩], 1⟩

/-! ## Helper lemmas -/

/-- Constructing an exception variant from a tag keeps the payload. -/
theorem payload_mkException (k : ErrKind) (p : ErrorPayload) :
    (mkException k p).payload = p := by
  cases k <;> rfl

/-- Constructing an exception variant from a tag keeps the tag. -/
theorem kind_mkException (k : ErrKind) (p : ErrorPayload) :
    (mkException k p).kind = k := by
  cases k <;> rfl

/-- On a 401, 403, 404 or 429 status the mapping is the dedicated kind. -/
theorem kindForStatus_mapped :
    kindForStatus 401 = ErrKind.authentication
    ∧ kindForStatus 403 = ErrKind.forbidden
    ∧ kindForStatus 404 = ErrKind.notFound
    ∧ kindForStatus 429 = ErrKind.rateLimit := by
  refine ⟨rfl, rfl, rfl, rfl⟩

/-- On a 5xx status the mapping is the server-error kind. -/
theorem kindForStatus_of_server (status : Nat) (h1 : 500 ≤ status)
    (h2 : status < 600) : kindForStatus status = ErrKind.server := by
  have e1 : (status == 401) = false := by rw [beq_eq_false_iff_ne]; omega
  have e2 : (status == 403) = false := by rw [beq_eq_false_iff_ne]; omega
  have e3 : (status == 404) = false := by rw [beq_eq_false_iff_ne]; omega
  have e4 : (status == 429) = false := by rw [beq_eq_false_iff_ne]; omega
  have e5 : (decide (500 ≤ status) && decide (status < 600)) = true := by
    simp only [Bool.and_eq_true, decide_eq_true_eq]
    exact ⟨h1, h2⟩
  simp [kindForStatus, e1, e2, e3, e4, e5]

/-- On any status outside the mapped set the mapping falls back to the
base kind. -/
theorem kindForStatus_of_unmapped (status : Nat) (h1 : status ≠ 401)
    (h2 : status ≠ 403) (h3 : status ≠ 404) (h4 : status ≠ 429)
    (h5 : ¬(500 ≤ status ∧ status < 600)) :
    kindForStatus status = ErrKind.api := by
  have e1 : (status == 401) = false := by rw [beq_eq_false_iff_ne]; exact h1
  have e2 : (status == 403) = false := by rw [beq_eq_false_iff_ne]; exact h2
  have e3 : (status == 404) = false := by rw [beq_eq_false_iff_ne]; exact h3
  have e4 : (status == 429) = false := by rw [beq_eq_false_iff_ne]; exact h4
  have e5 : (decide (500 ≤ status) && decide (status < 600)) = false := by
    rw [Bool.eq_false_iff]
    intro hb
    rw [Bool.and_eq_true, decide_eq_true_eq, decide_eq_true_eq] at hb
    exact h5 hb
  simp [kindForStatus, e1, e2, e3, e4, e5]

/-- The raised exception's `status_code` is the response status. -/
theorem raiseFor_status_code (status : Nat) (body : String)
    (jb : Option Json) : (raiseFor status body jb).status_code = (status : Int) := by
  simp [raiseFor, WarTrackException.status_code, payload_mkException]

/-- The raised exception's variant is the one the mapping names. -/
theorem raiseFor_kind (status : Nat) (body : String) (jb : Option Json) :
    (raiseFor status body jb).kind = kindForStatus status := by
  simp [raiseFor, kind_mkException]

/-- On a non-2xx status the client raises the mapped exception. -/
theorem handleOutcome_non2xx (op : Operation) (status : Nat) (body : String)
    (jb : Option Json) (h : ¬(200 ≤ status ∧ status < 300)) :
    handleOutcome op (TransportOutcome.response status body jb)
      = ClientResult.apiFailure (raiseFor status body jb) := by
  have hcond : (decide (200 ≤ status) && decide (status < 300)) = false := by
    rw [Bool.eq_false_iff]
    intro hb
    rw [Bool.and_eq_true, decide_eq_true_eq, decide_eq_true_eq] at hb
    exact h hb
  simp [handleOutcome, hcond]

/-- Handling one transport outcome lands in exactly one of the four result
shapes, and a success value always comes from a successful decode. -/
theorem handleOutcome_cases (op : Operation) (o : TransportOutcome) :
    (∃ s b j v, o = TransportOutcome.response s b (some j)
        ∧ decodeFor op j = Except.ok v
        ∧ handleOutcome op o = ClientResult.success v)
    ∨ (∃ e, handleOutcome op o = ClientResult.apiFailure e)
    ∨ (∃ m, handleOutcome op o = ClientResult.decodeFailure m)
    ∨ handleOutcome op o = ClientResult.timeoutFailure := by
  cases o with
  | timedOut => exact Or.inr (Or.inr (Or.inr rfl))
  | response s b jb =>
    by_cases h2 : (decide (200 ≤ s) && decide (s < 300)) = true
    · cases jb with
      | none =>
        exact Or.inr (Or.inr (Or.inl ⟨"response body is not valid JSON",
          by simp [handleOutcome, h2]⟩))
      | some j =>
        cases hd : decodeFor op j with
        | ok v =>
          exact Or.inl ⟨s, b, j, v, rfl, hd, by simp [handleOutcome, h2, hd]⟩
        | error m =>
          exact Or.inr (Or.inr (Or.inl ⟨m, by simp [handleOutcome, h2, hd]⟩))
    · exact Or.inr (Or.inl ⟨raiseFor s b jb,
        by simp [handleOutcome, Bool.eq_false_iff.mpr h2]⟩)

/-- A success result can only arise from a 2xx response whose JSON body the
operation's decoder accepted. -/
theorem handleOutcome_success (op : Operation) (o : TransportOutcome)
    (v : ModelValue) (h : handleOutcome op o = ClientResult.success v) :
    ∃ s b j, o = TransportOutcome.response s b (some j)
      ∧ decodeFor op j = Except.ok v := by
  cases o with
  | timedOut => exact absurd h (by simp [handleOutcome])
  | response s b jb =>
    by_cases h2 : (decide (200 ≤ s) && decide (s < 300)) = true
    · cases jb with
      | none => exact absurd h (by simp [handleOutcome, h2])
      | some j =>
        cases hd : decodeFor op j with
        | ok v2 =>
          have hv : v2 = v := by
            have h3 := h
            simp [handleOutcome, h2, hd] at h3
            exact h3
          exact ⟨s, b, j, rfl, by rw [hd, hv]⟩
        | error m => exact absurd h (by simp [handleOutcome, h2, hd])
    · exact absurd h (by simp [handleOutcome, Bool.eq_false_iff.mpr h2])

/-! ## Claims -/

/-- C1: For every HTTP response received by a Client operation with a
non-2xx status code, the Client raises exactly one exception determined by
the status code — the authentication variant for 401, forbidden for 403,
not-found for 404, rate-limit for 429, server for any 5xx, and the base
variant for any other unmapped code — and the raised exception's
`status_code` field equals the actual response status code. -/
theorem client_raises_mapped_exception (op : Operation) (status : Nat)
    (body : String) (jb : Option Json) (h : ¬(200 ≤ status ∧ status < 300)) :
    handleOutcome op (TransportOutcome.response status body jb)
      = ClientResult.apiFailure (raiseFor status body jb)
    ∧ (raiseFor status body jb).status_code = (status : Int)
    ∧ (raiseFor status body jb).kind = kindForStatus status
    ∧ (status = 401 → kindForStatus status = ErrKind.authentication)
    ∧ (status = 403 → kindForStatus status = ErrKind.forbidden)
    ∧ (status = 404 → kindForStatus status = ErrKind.notFound)
    ∧ (status = 429 → kindForStatus status = ErrKind.rateLimit)
    ∧ (500 ≤ status → status < 600 → kindForStatus status = ErrKind.server)
    ∧ (status ≠ 401 → status ≠ 403 → status ≠ 404 → status ≠ 429 →
        ¬(500 ≤ status ∧ status < 600) → kindForStatus status = ErrKind.api) := by
  refine ⟨handleOutcome_non2xx op status body jb h,
    raiseFor_status_code status body jb, raiseFor_kind status body jb,
    ?_, ?_, ?_, ?_, ?_, ?_⟩
  · rintro rfl; rfl
  · rintro rfl; rfl
  · rintro rfl; rfl
  · rintro rfl; rfl
  · exact kindForStatus_of_server status
  · exact kindForStatus_of_unmapped status

/-- Witness for C1 at the §8 scenario: a 404 response with body
`not found` raises the not-found variant with `status_code = 404`. -/
theorem client_raises_mapped_exception_witness :
    handleOutcome (Operation.get_equipment "tank-01")
        (TransportOutcome.response 404 "not found" none)
      = ClientResult.apiFailure (raiseFor 404 "not found" none)
    ∧ (raiseFor 404 "not found" none).status_code = 404
    ∧ kindForStatus 404 = ErrKind.notFound := by
  have h := client_raises_mapped_exception (Operation.get_equipment "tank-01")
    404 "not found" none (by decide)
  exact ⟨h.1, h.2.1, h.2.2.2.2.2.1 rfl⟩

/-- C6: Every specific exception variant is a member of the base kind
`WarTrackAPIError`, and every exception value carries the base class's
field set — a `status_code` integer and a `message` string (with optional
raw body) — through its payload. -/
theorem exception_variants_extend_base (e : WarTrackException) (k : ErrKind)
    (p : ErrorPayload) :
    isWarTrackAPIError e = true
    ∧ e.status_code = e.payload.status_code
    ∧ e.message = e.payload.message
    ∧ (mkException k p).payload = p
    ∧ (mkException k p).status_code = p.status_code
    ∧ (mkException k p).message = p.message
    ∧ (mkException k p).payload.raw_body = p.raw_body := by
  refine ⟨?_, rfl, rfl, payload_mkException k p, ?_, ?_, ?_⟩
  · cases e <;> rfl
  · simp [WarTrackException.status_code, payload_mkException]
  · simp [WarTrackException.message, payload_mkException]
  · simp [payload_mkException]

/-- C2: Every Client call either returns a fully populated model value
(one that the operation's decoder produced from the response body's JSON)
or surfaces exactly one failure — a taxonomy exception, a decoding error,
or a timeout error; there is no other outcome and no null or partial
return. -/
theorem client_call_total_outcomes (c : ClientConfig) (op : Operation)
    (transport : Request → TransportOutcome) :
    (∃ s b j v, transport (buildRequest c op) = TransportOutcome.response s b (some j)
        ∧ decodeFor op j = Except.ok v
        ∧ (clientCall c op transport).1 = ClientResult.success v)
    ∨ (∃ e, (clientCall c op transport).1 = ClientResult.apiFailure e)
    ∨ (∃ m, (clientCall c op transport).1 = ClientResult.decodeFailure m)
    ∨ (clientCall c op transport).1 = ClientResult.timeoutFailure := by
  exact handleOutcome_cases op (transport (buildRequest c op))

/-- C5: For every error response, the raised exception's message follows
the fallback chain without crashing: the structured JSON `message` field
when present, otherwise the raw body text when non-empty, otherwise a
generic phrase naming the status code; and the mapped exception is still
raised. -/
theorem error_message_fallback (op : Operation) (status : Nat) (body : String)
    (jb : Option Json) :
    (¬(200 ≤ status ∧ status < 300) →
      handleOutcome op (TransportOutcome.response status body jb)
        = ClientResult.apiFailure (raiseFor status body jb))
    ∧ (∀ m, jsonMessageField jb = some m → (raiseFor status body jb).message = m)
    ∧ (jsonMessageField jb = none → body ≠ "" →
        (raiseFor status body jb).message = body)
    ∧ (jsonMessageField jb = none → body = "" →
        (raiseFor status body jb).message = genericMessage status) := by
  refine ⟨handleOutcome_non2xx op status body jb, ?_, ?_, ?_⟩
  · intro m hm
    simp [raiseFor, WarTrackException.message, payload_mkException,
      bestMessage, hm]
  · intro hm hb
    have hb2 : (body == "") = false := by rw [beq_eq_false_iff_ne]; exact hb
    simp [raiseFor, WarTrackException.message, payload_mkException,
      bestMessage, hm, hb2]
  · intro hm hb
    subst hb
    simp [raiseFor, WarTrackException.message, payload_mkException,
      bestMessage, hm]

/-- Witness for C5: a 500 response with an empty, non-JSON body still
raises, with the generic message naming the status. -/
theorem error_message_fallback_witness :
    handleOutcome (Operation.get_system "s1")
        (TransportOutcome.response 500 "" none)
      = ClientResult.apiFailure (raiseFor 500 "" none)
    ∧ (raiseFor 500 "" none).message = genericMessage 500 := by
  have h := error_message_fallback (Operation.get_system "s1") 500 "" none
  exact ⟨h.1 (by decide), h.2.2.2 rfl rfl⟩

/-- C7: Every Client call issues exactly one outbound request against the
transport — the one its operation builds — whatever the transport returns:
no retry and no implicit pagination traversal. -/
theorem client_call_single_request (c : ClientConfig) (op : Operation)
    (transport : Request → TransportOutcome) :
    (clientCall c op transport).2 = [buildRequest c op]
    ∧ (clientCall c op transport).2.length = 1 :=
  ⟨rfl, rfl⟩

/-- C8: A model value returned by a successful Client call is constructed
exclusively by decoding the JSON body of the response the transport
delivered for that call's request; the model types themselves are immutable
value objects, so no operation of the library alters a constructed
instance. -/
theorem models_constructed_only_by_decode (c : ClientConfig) (op : Operation)
    (transport : Request → TransportOutcome) (v : ModelValue)
    (h : (clientCall c op transport).1 = ClientResult.success v) :
    ∃ s b j, transport (buildRequest c op) = TransportOutcome.response s b (some j)
      ∧ decodeFor op j = Except.ok v := by
  exact handleOutcome_success op (transport (buildRequest c op)) v h

/-- Witness for C8: the empty-page scenario's success value is exactly the
decode of the served body. -/
theorem models_constructed_only_by_decode_witness :
    ∃ s b j,
      emptyPageTransport (buildRequest exampleConfig (Operation.list_system [] 1))
        = TransportOutcome.response s b (some j)
      ∧ decodeFor (Operation.list_system [] 1) j
        = Except.ok (ModelValue.allSystem ⟨[], 0⟩) := by
  exact models_constructed_only_by_decode exampleConfig
    (Operation.list_system [] 1) emptyPageTransport
    (ModelValue.allSystem ⟨[], 0⟩) rfl

/-- Decoding a list succeeds exactly elementwise: the output has the input's
length and its `i`-th element is the decode of the `i`-th input element. -/
theorem decodeItems_spec {α : Type} (dec : Json → Except String α) :
    ∀ (js : List Json) (xs : List α), decodeItems dec js = Except.ok xs →
      xs.length = js.length ∧
      ∀ (i : Nat) (h1 : i < js.length) (h2 : i < xs.length),
        dec (js.get ⟨i, h1⟩) = Except.ok (xs.get ⟨i, h2⟩) := by
  intro js
  induction js with
  | nil =>
    intro xs h
    unfold decodeItems at h
    have hx : ([] : List α) = xs := by simpa using h
    subst hx
    exact ⟨rfl, fun i h1 _ => absurd h1 (Nat.not_lt_zero i)⟩
  | cons j js ih =>
    intro xs h
    unfold decodeItems at h
    split at h
    · exact absurd h (by simp)
    · rename_i x hx
      split at h
      · exact absurd h (by simp)
      · rename_i tl htl
        have hxs : x :: tl = xs := by simpa using h
        subst hxs
        obtain ⟨hlen, hget⟩ := ih tl htl
        refine ⟨by simp [hlen], ?_⟩
        intro i h1 h2
        cases i with
        | zero => exact hx
        | succ n =>
          have h1n : n < js.length := by simpa using h1
          have h2n : n < tl.length := by simpa using h2
          exact hget n h1n h2n

/-- A successful `AllEquipment` decode decodes exactly the `items` array. -/
theorem allEquipment_decode_items (fields : List (String × Json))
    (js : List Json) (a : AllEquipment)
    (hi : getField fields "items" = some (Json.arr js))
    (hd : AllEquipment.decode (Json.obj fields) = Except.ok a) :
    decodeItems Equipment.decode js = Except.ok a.items := by
  have hga : getArr fields "items" = Except.ok js := by simp [getArr, hi]
  simp only [AllEquipment.decode] at hd
  split at hd
  · rename_i m heq
    rw [hga] at heq
    exact absurd heq (by simp)
  · rename_i es heq
    rw [hga] at heq
    have hes : js = es := by simpa using heq
    subst hes
    split at hd
    · exact absurd hd (by simp)
    · rename_i items hitems
      split at hd
      · exact absurd hd (by simp)
      · rename_i total htot
        have : (⟨items, total⟩ : AllEquipment) = a := by simpa using hd
        rw [← this]
        exact hitems

/-- A successful `AllSystem` decode decodes exactly the `items` array. -/
theorem allSystem_decode_items (fields : List (String × Json))
    (js : List Json) (y : AllSystem)
    (hi : getField fields "items" = some (Json.arr js))
    (hd : AllSystem.decode (Json.obj fields) = Except.ok y) :
    decodeItems System.decode js = Except.ok y.items := by
  have hga : getArr fields "items" = Except.ok js := by simp [getArr, hi]
  simp only [AllSystem.decode] at hd
  split at hd
  · rename_i m heq
    rw [hga] at heq
    exact absurd heq (by simp)
  · rename_i es heq
    rw [hga] at heq
    have hes : js = es := by simpa using heq
    subst hes
    split at hd
    · exact absurd hd (by simp)
    · rename_i items hitems
      split at hd
      · exact absurd hd (by simp)
      · rename_i total htot
        have : (⟨items, total⟩ : AllSystem) = y := by simpa using hd
        rw [← this]
        exact hitems

/-- C3: decoding a plural response preserves element order — a decoded
`AllEquipment` (respectively `AllSystem`) page has one model per element of
the input `items` array, and its `i`-th model is the decode of the `i`-th
input element, for every index. -/
theorem plural_decode_preserves_order
    (fieldsE fieldsS : List (String × Json)) (jsE jsS : List Json)
    (a : AllEquipment) (y : AllSystem)
    (hiE : getField fieldsE "items" = some (Json.arr jsE))
    (hdE : AllEquipment.decode (Json.obj fieldsE) = Except.ok a)
    (hiS : getField fieldsS "items" = some (Json.arr jsS))
    (hdS : AllSystem.decode (Json.obj fieldsS) = Except.ok y) :
    (a.items.length = jsE.length
      ∧ ∀ (i : Nat) (h1 : i < jsE.length) (h2 : i < a.items.length),
          Equipment.decode (jsE.get ⟨i, h1⟩) = Except.ok (a.items.get ⟨i, h2⟩))
    ∧ (y.items.length = jsS.length
      ∧ ∀ (i : Nat) (h1 : i < jsS.length) (h2 : i < y.items.length),
          System.decode (jsS.get ⟨i, h1⟩) = Except.ok (y.items.get ⟨i, h2⟩)) :=
  ⟨decodeItems_spec Equipment.decode jsE a.items
      (allEquipment_decode_items fieldsE jsE a hiE hdE),
   decodeItems_spec System.decode jsS y.items
      (allSystem_decode_items fieldsS jsS y hiS hdS)⟩

/-- Witness for C3 at a three-element equipment page and the §8 one-system
page. -/
theorem plural_decode_preserves_order_witness :
    decodedEquipmentPage.items.length = 3
    ∧ decodedSystemPage.items.length = 1 := by
  have h := plural_decode_preserves_order
    [("items", Json.arr [eqJson1, eqJson2, eqJson3]), ("total", Json.num 3)]
    [("items", Json.arr [sysJson1]), ("total", Json.num 1)]
    [eqJson1, eqJson2, eqJson3] [sysJson1]
    decodedEquipmentPage decodedSystemPage rfl rfl rfl rfl
  exact ⟨h.1.1, h.2.1⟩

/-- C4: decoding an object whose required `id` field is missing or wrongly
shaped fails with a decoding error and never yields an Equipment instance;
a decoding failure is a different result than a taxonomy exception. -/
theorem equipment_decode_missing_or_malformed_id (fields : List (String × Json)) :
    (getField fields "id" = none →
      Equipment.decode (Json.obj fields) = Except.error "missing required field: id"
      ∧ ∀ e : Equipment, Equipment.decode (Json.obj fields) ≠ Except.ok e)
    ∧ (∀ j, getField fields "id" = some j → (∀ s, j ≠ Json.str s) →
      Equipment.decode (Json.obj fields) = Except.error "field has the wrong shape: id"
      ∧ ∀ e : Equipment, Equipment.decode (Json.obj fields) ≠ Except.ok e)
    ∧ (∀ (m : String) (e : WarTrackException),
        ClientResult.decodeFailure m ≠ ClientResult.apiFailure e) := by
  refine ⟨?_, ?_, ?_⟩
  · intro h
    have hs : getStr fields "id" = Except.error "missing required field: id" := by
      simp [getStr, h]
    have hd : Equipment.decode (Json.obj fields)
        = Except.error "missing required field: id" := by
      simp only [Equipment.decode]
      rw [hs]
    exact ⟨hd, fun e he => absurd (hd ▸ he) (by simp)⟩
  · intro j hj hns
    have hs : getStr fields "id" = Except.error "field has the wrong shape: id" := by
      cases j with
      | str s => exact absurd rfl (hns s)
      | null => simp [getStr, hj]
      | bool b => simp [getStr, hj]
      | num n => simp [getStr, hj]
      | arr es => simp [getStr, hj]
      | obj fs => simp [getStr, hj]
    have hd : Equipment.decode (Json.obj fields)
        = Except.error "field has the wrong shape: id" := by
      simp only [Equipment.decode]
      rw [hs]
    exact ⟨hd, fun e he => absurd (hd ▸ he) (by simp)⟩
  · intro m e h
    exact absurd h (by simp)

/-- Witness for C4: an object carrying only a `name` decodes to the
missing-`id` error. -/
theorem equipment_decode_missing_id_witness :
    Equipment.decode (Json.obj [("name", Json.str "A")])
      = Except.error "missing required field: id" :=
  ((equipment_decode_missing_or_malformed_id [("name", Json.str "A")]).1 rfl).1

/-- C9: decoding a well-formed single-entity object — one carrying exactly
the schema fields, i.e. any encoding of a `System` value — and re-encoding
the decoded model yields the original object, all fields unchanged. -/
theorem system_decode_encode_roundtrip (s0 : System) :
    ∃ s : System, System.decode (System.encode s0) = Except.ok s
      ∧ System.encode s = System.encode s0 := by
  refine ⟨s0, ?_, rfl⟩
  obtain ⟨id, name, ⟨st⟩, ⟨co⟩, desc, img⟩ := s0
  cases desc <;> cases img <;> rfl

/-- C10: the `__all__` export list of `watpy/__init__.py` holds exactly the
14 names imported at module top level, each name exactly once. -/
theorem export_list_matches_imports :
    dunderAll.length = 14
    ∧ importedNames.length = 14
    ∧ nodupNames dunderAll = true
    ∧ nodupNames importedNames = true
    ∧ sameNames dunderAll importedNames = true :=
  ⟨rfl, rfl, rfl, rfl, rfl⟩

end Watpy
